import Mathlib

/-!
Verification of `django_simple_profiler/functions.py`.

The module is embedded shallowly:

* Python machine floats are idealised as exact rationals (`ℚ`); `round(x, k)`
  is modelled as exact round-half-to-even at `k` decimal places, and
  `math.floor(math.log(n, 1024))` as `Nat.log 1024 n` (the exact value the
  float expression approximates).
* A host query-log entry (`connection.queries` element) carries its `"sql"`
  string, its `"time"` field both as the raw string the host supplies and as
  the rational that `float(...)` parses it to.
* The side effects of a profiler run (clock reads, memory reads, query-log
  reset, `print` calls) are recorded in an explicit effect trace; a `print`
  carries an abstract description of the rendered text (`Out`), since the
  `terminaltables`/`colorclass` rendering is an external collaborator.
  Cosmetic cell padding and ANSI colour wrappers inside table cells are
  omitted from the model.
* A Python exception escaping a function is an `Except.error`; `RunError`
  distinguishes an exception raised by the wrapped work from one raised by
  the report machinery itself (e.g. `ValueError` inside `_convert_size`).
-/

namespace DjangoSimpleProfiler

/-- A record of the host framework's query log (`connection.queries` element):
`sql` is the query text, `timeStr` the raw string in the `"time"` field, and
`timeVal` the rational value that Python's `float(query["time"])` parses it
to (float parsing idealised as exact). -/
structure HostQuery where
  sql : String
  timeStr : String
  timeVal : ℚ
deriving DecidableEq, Repr

/-- An element of `queries_list` as built by the profiler loop:
a dict `{"sql": ..., "time": ...}`. -/
structure QueryRec where
  sql : String
  time : ℚ
deriving DecidableEq, Repr

/-- Round half to even (Python banker's rounding) to an integer. -/
def rhe (q : ℚ) : ℤ :=
  if q - ⌊q⌋ < 1 / 2 then ⌊q⌋
  else if q - ⌊q⌋ > 1 / 2 then ⌊q⌋ + 1
  else if ⌊q⌋ % 2 = 0 then ⌊q⌋ else ⌊q⌋ + 1

/-- Python `round(q, 2)` idealised on exact rationals. -/
def round2 (q : ℚ) : ℚ := (rhe (q * 100) : ℚ) / 100

/-- Python `round(q, 4)` idealised on exact rationals. -/
def round4 (q : ℚ) : ℚ := (rhe (q * 10000) : ℚ) / 10000

/-- The tuple `size_name` of `_convert_size`. -/
def size_name : List String := ["B", "KB", "MB", "GB", "TB", "PB", "EB", "ZB", "YB"]

/-- `repr` of the nonnegative Python float produced by `round(x, 2)`:
an exact multiple of `1/100` printed with its trailing zeros stripped
(but at least one digit after the point, as Python prints floats). -/
def pyFloatRepr2 (z : ℚ) : String :=
  let m : ℕ := (z * 100).num.toNat
  let ip := m / 100
  let fr := m % 100
  if fr = 0 then toString ip ++ ".0"
  else if fr % 10 = 0 then toString ip ++ "." ++ toString (fr / 10)
  else if fr < 10 then toString ip ++ ".0" ++ toString fr
  else toString ip ++ "." ++ toString fr

/-- `_convert_size(size_bytes)`.  `none` models an uncaught exception:
`math.log` raises `ValueError` on a negative argument, and `size_name[x]`
raises `IndexError` when the unit index reaches 9 (the code does not clamp).
The float expression `int(math.floor(math.log(size_bytes, 1024)))` is
idealised as the exact `Nat.log 1024`. -/
def _convert_size (size_bytes : ℤ) : Option String :=
  if size_bytes = 0 then some "0B"
  else if size_bytes < 0 then none
  else
    let x := Nat.log 1024 size_bytes.toNat
    if x < 9 then
      some (pyFloatRepr2 (round2 ((size_bytes : ℚ) / 1024 ^ x)) ++ " " ++ size_name.getD x "")
    else none

/-- Python `s.replace(c, "")` for the single character `c`. -/
def removeChar (c : Char) (s : String) : String :=
  String.mk (s.data.filter (fun a => a != c))

/-- Python `s.replace(",", ", ")`: each comma becomes a comma followed by a
space (left-to-right, replacements not rescanned — for a single-character
pattern this is exactly a character-level expansion). -/
def commaSpace (s : String) : String :=
  String.mk (s.data.flatMap (fun a => if a = ',' then [',', ' '] else [a]))

/-- The double-quote character removed by `query["sql"].replace('"', "")`. -/
def quoteChar : Char := Char.ofNat 34

/-- `prettify_sql = "[{}] {}".format(query["time"], query["sql"].replace('"', "").replace(",", ", "))`. -/
def prettify_sql (q : HostQuery) : String :=
  "[" ++ q.timeStr ++ "] " ++ commaSpace (removeChar quoteChar q.sql)

/-- The entries of the log that pass the loop's `if query["sql"]:` guard
(Python truthiness: the empty string is falsy). -/
def retainedQueries (log : List HostQuery) : List HostQuery :=
  log.filter (fun q => q.sql != "")

/-- The `queries_list` built by the loop before sorting: one dict
`{"sql": f"{prettify_sql}\n", "time": float(query["time"])}` per retained
log entry, in log order. -/
def buildRecords (log : List HostQuery) : List QueryRec :=
  (retainedQueries log).map (fun q => { sql := prettify_sql q ++ "\n", time := q.timeVal })

/-- `total_queries_time`: the running sum `+= float(query["time"])` over the
retained entries. -/
def totalQueriesTime (log : List HostQuery) : ℚ :=
  ((retainedQueries log).map (fun q => q.timeVal)).sum

/-- The comparison underlying `sorted(queries_list, key=lambda x: -x["time"])`:
`a` may precede `b` iff `-a.time ≤ -b.time`. -/
def queryLE (a b : QueryRec) : Bool := decide (b.time ≤ a.time)

/-- `sorted(queries_list, key=lambda x: -x["time"])`: Python's stable sort,
modelled by the (stable) `List.mergeSort`. -/
def sortQueries (l : List QueryRec) : List QueryRec :=
  l.mergeSort queryLE

/-- Abstract description of one `print` payload of the report. Table
rendering (`SingleTable`) and colour markup are external; the model keeps
each table's title and cell contents. -/
inductive Out where
  | blank : Out
  | timingTable (title : String) (totalTime : ℚ) (queriesTime : ℚ) (count : ℕ) : Out
  | queriesTable (title : String) (rows : List String) : Out
  | memoryTable (title : String) (before after diff : String) : Out
  | line (s : String) : Out
deriving DecidableEq, Repr

/-- `_table_response_timing(lineno, total_time, total_queries_time, queries_count)`. -/
def _table_response_timing (lineno : String) (total_time total_queries_time : ℚ)
    (queries_count : ℕ) : Out :=
  Out.timingTable (" " ++ lineno ++ " time ") total_time total_queries_time queries_count

/-- `_table_response_queries(lineno, queries)`: the pair (table title, row
texts). One placeholder row when `queries` is empty; otherwise one row per
query holding `query["sql"][:200]`, and a title counting `len(queries)` —
the length of the list it was handed. -/
def _table_response_queries (lineno : String) (queries : List QueryRec) :
    String × List String :=
  let rows := if queries.isEmpty then ["No sql queries"]
              else queries.map (fun q => q.sql.take 200)
  let title := if queries.isEmpty then " queries "
               else " " ++ lineno ++ " top " ++ toString queries.length ++ " queries "
  (title, rows)

/-- `_single_line_response_queries(lineno, queries)`: the sequence of `print`
payloads — a header line, then each query's full `"sql"` text. -/
def _single_line_response_queries (lineno : String) (queries : List QueryRec) : List Out :=
  Out.line (lineno ++ " " ++ toString queries.length ++ " queries:\n")
    :: queries.map (fun q => Out.line q.sql)

/-- `_table_response_memory(lineno, memory_before, memory_after, memory_difference)`
with `memory_difference = memory_after - memory_before`. `none` models the
`ValueError` that `_convert_size` raises while the cells are being built
(e.g. on a negative difference). -/
def _table_response_memory (lineno : String) (memory_before memory_after : ℕ) :
    Option Out :=
  match _convert_size (memory_before : ℤ), _convert_size (memory_after : ℤ),
      _convert_size ((memory_after : ℤ) - (memory_before : ℤ)) with
  | some b, some a, some d => some (Out.memoryTable (" " ++ lineno ++ " memory ") b a d)
  | _, _, _ => none

/-- The query table printed by the compact forms:
`_table_response_queries(lineno, queries_list[:10])` applied to the sorted
records built from the captured log. -/
def compact_query_table (lineno : String) (log : List HostQuery) : String × List String :=
  _table_response_queries lineno ((sortQueries (buildRecords log)).take 10)

/-- One observable side effect of a profiler wrapper: a `time.process_time()`
call, a `psutil` resident-memory read, a `reset_queries()` call, or a `print`. -/
inductive Effect where
  | readClock : Effect
  | readMemory : Effect
  | resetQueries : Effect
  | emit (o : Out) : Effect
deriving DecidableEq, Repr

/-- The wrapped unit of work: what it returns (or raises), and the host-log
entries it appends to the freshly reset query log. -/
structure Work (α ε : Type) where
  result : Except ε α
  queries : List HostQuery

/-- An exception escaping a profiler wrapper: either the wrapped work's own
exception, propagated, or one raised by the report machinery itself. -/
inductive RunError (ε : Type) where
  | work (e : ε)
  | report
deriving DecidableEq

/-- One invocation of the `wrapper` closure of `django_profiler(func)`.
`t0, t1` are the values the two `time.process_time()` calls would return and
`m0, m1` the two resident-memory reads (external oracles). Returns the
effect trace of the wrapper itself (the work's own effects are not the
wrapper's) and the propagated outcome. -/
def django_profiler_run {α ε : Type} (debug : Bool) (funcName : String)
    (firstLineNo : ℕ) (t0 t1 : ℚ) (m0 m1 : ℕ) (work : Work α ε) :
    List Effect × Except (RunError ε) α :=
  if debug then
    let lineno := funcName ++ " [" ++ toString firstLineNo ++ "]"
    let pre : List Effect := [Effect.readClock, Effect.readMemory, Effect.resetQueries]
    match work.result with
    | Except.error e => (pre, Except.error (RunError.work e))
    | Except.ok v =>
      let queries_count := work.queries.length
      let total_queries_time := totalQueriesTime work.queries
      let queries_list := sortQueries (buildRecords work.queries)
      let total_request_time := round4 (t1 - t0)
      let qt := _table_response_queries lineno (queries_list.take 10)
      let outs := pre ++ [Effect.readMemory, Effect.readClock,
        Effect.emit Out.blank,
        Effect.emit (_table_response_timing lineno total_request_time total_queries_time queries_count),
        Effect.emit Out.blank,
        Effect.emit (Out.queriesTable qt.1 qt.2),
        Effect.emit Out.blank]
      match _table_response_memory lineno m0 m1 with
      | some mt => (outs ++ [Effect.emit mt, Effect.emit Out.blank], Except.ok v)
      | none => (outs, Except.error RunError.report)
  else ([], work.result.mapError RunError.work)

/-- One invocation of the `wrapper` closure of `django_profiler_full(func)`:
identical to `django_profiler_run` except that the query table is replaced
by `_single_line_response_queries` over the whole sorted list. -/
def django_profiler_full_run {α ε : Type} (debug : Bool) (funcName : String)
    (firstLineNo : ℕ) (t0 t1 : ℚ) (m0 m1 : ℕ) (work : Work α ε) :
    List Effect × Except (RunError ε) α :=
  if debug then
    let lineno := funcName ++ " [" ++ toString firstLineNo ++ "]"
    let pre : List Effect := [Effect.readClock, Effect.readMemory, Effect.resetQueries]
    match work.result with
    | Except.error e => (pre, Except.error (RunError.work e))
    | Except.ok v =>
      let queries_count := work.queries.length
      let total_queries_time := totalQueriesTime work.queries
      let queries_list := sortQueries (buildRecords work.queries)
      let total_request_time := round4 (t1 - t0)
      let outs := pre ++ [Effect.readMemory, Effect.readClock,
        Effect.emit Out.blank,
        Effect.emit (_table_response_timing lineno total_request_time total_queries_time queries_count),
        Effect.emit Out.blank]
        ++ (_single_line_response_queries lineno queries_list).map Effect.emit
        ++ [Effect.emit Out.blank]
      match _table_response_memory lineno m0 m1 with
      | some mt => (outs ++ [Effect.emit mt, Effect.emit Out.blank], Except.ok v)
      | none => (outs, Except.error RunError.report)
  else ([], work.result.mapError RunError.work)

/-- The `lineno` label the `DjangoProfiler` context manager derives:
`if label:` (Python truthiness — `None` and the empty string are falsy)
wraps the label in ANSI bold red, otherwise the caller's name is used. -/
def djangoProfilerLineno (label : Option String) (callerName : String)
    (callerLineNo : ℕ) : String :=
  match label with
  | some l =>
    if l != "" then "\x1b[1;31m" ++ l ++ "\x1b[0m [" ++ toString callerLineNo ++ "]"
    else callerName ++ " [" ++ toString callerLineNo ++ "]"
  | none => callerName ++ " [" ++ toString callerLineNo ++ "]"

/-- One `with DjangoProfiler(label, full):` block. `callerName, callerLineNo`
are what `inspect.stack()[2]` resolves to; the block is the `Work` (only
`Unit`-valued: a `with` block yields no value of its own). An exception in
the block is thrown into the generator at `yield` and, with no enclosing
`try`, propagates before any post-`yield` statement runs. -/
def DjangoProfiler_run {ε : Type} (debug : Bool) (label : Option String) (full : Bool)
    (callerName : String) (callerLineNo : ℕ) (t0 t1 : ℚ) (m0 m1 : ℕ)
    (work : Work Unit ε) : List Effect × Except (RunError ε) Unit :=
  if debug then
    let lineno := djangoProfilerLineno label callerName callerLineNo
    let pre : List Effect := [Effect.readClock, Effect.readMemory, Effect.resetQueries]
    match work.result with
    | Except.error e => (pre, Except.error (RunError.work e))
    | Except.ok _ =>
      let queries_count := work.queries.length
      let total_queries_time := totalQueriesTime work.queries
      let queries_list := sortQueries (buildRecords work.queries)
      let total_request_time := round4 (t1 - t0)
      let qt := _table_response_queries lineno (queries_list.take 10)
      let outs := pre ++ [Effect.readMemory, Effect.readClock,
        Effect.emit Out.blank,
        Effect.emit (_table_response_timing lineno total_request_time total_queries_time queries_count),
        Effect.emit Out.blank]
        ++ (if full then (_single_line_response_queries lineno queries_list).map Effect.emit
            else [Effect.emit (Out.queriesTable qt.1 qt.2)])
        ++ [Effect.emit Out.blank]
      match _table_response_memory lineno m0 m1 with
      | some mt => (outs ++ [Effect.emit mt, Effect.emit Out.blank], Except.ok ())
      | none => (outs, Except.error RunError.report)
  else ([], work.result.mapError RunError.work)

/-! ### Shared helper lemmas -/

theorem abs_rhe_sub (q : ℚ) : |(rhe q : ℚ) - q| ≤ 1 / 2 := by
  unfold rhe
  have h1 : (⌊q⌋ : ℚ) ≤ q := Int.floor_le q
  have h2 : q < ⌊q⌋ + 1 := Int.lt_floor_add_one q
  split_ifs with h h' h'' <;> rw [abs_le] <;>
    constructor <;> push_cast at * <;> linarith

theorem abs_round2_sub (q : ℚ) : |round2 q - q| ≤ 1 / 200 := by
  have h := abs_rhe_sub (q * 100)
  unfold round2
  rw [show (rhe (q * 100) : ℚ) / 100 - q = ((rhe (q * 100) : ℚ) - q * 100) / 100 by ring]
  rw [abs_div, abs_of_pos (by norm_num : (0 : ℚ) < 100)]
  linarith

theorem queryLE_trans : ∀ (a b c : QueryRec), queryLE a b → queryLE b c → queryLE a c := by
  intro a b c hab hbc
  simp only [queryLE, decide_eq_true_eq] at *
  exact le_trans hbc hab

theorem queryLE_total : ∀ (a b : QueryRec), queryLE a b || queryLE b a := by
  intro a b
  simp only [queryLE, Bool.or_eq_true, decide_eq_true_eq]
  exact le_total b.time a.time

theorem sortQueries_pairwise (l : List QueryRec) :
    (sortQueries l).Pairwise (fun a b => b.time ≤ a.time) := by
  have h := List.sorted_mergeSort queryLE_trans queryLE_total l
  exact h.imp (by intro a b hab; simp only [queryLE, decide_eq_true_eq] at hab; exact hab)

theorem sortQueries_filter (l : List QueryRec) (d : ℚ) :
    (sortQueries l).filter (fun r => r.time == d) = l.filter (fun r => r.time == d) := by
  have hpw : (l.filter (fun r => r.time == d)).Pairwise (fun a b => queryLE a b = true) := by
    apply List.pairwise_of_forall_mem_list
    intro a ha b hb
    have hpa := List.of_mem_filter ha
    have hpb := List.of_mem_filter hb
    simp only [beq_iff_eq] at hpa hpb
    simp [queryLE, hpa, hpb]
  have stab := List.sublist_mergeSort queryLE_trans queryLE_total hpw
    (List.filter_sublist l)
  have stabf := stab.filter (fun r => r.time == d)
  rw [List.filter_filter] at stabf
  simp only [Bool.and_self] at stabf
  have hperm := (List.mergeSort_perm l queryLE).filter (fun r => r.time == d)
  exact (stabf.eq_of_length hperm.length_eq.symm).symm

theorem sortQueries_length (l : List QueryRec) : (sortQueries l).length = l.length :=
  List.length_mergeSort l

theorem sortQueries_mem {q : QueryRec} {l : List QueryRec} :
    q ∈ sortQueries l ↔ q ∈ l :=
  List.mem_mergeSort

theorem string_take_length_le (s : String) (n : ℕ) : (s.take n).length ≤ n := by
  rw [String.take_eq]
  simp

/-- The number of `print` calls recorded in an effect trace. -/
def emitCount (tr : List Effect) : ℕ :=
  tr.countP (fun eff => match eff with | Effect.emit _ => true | _ => false)

/-! ### Claim theorems -/

/-- C1: when the debug flag is false, all three scope forms (plain decorator,
full decorator, context manager) return/propagate the wrapped work's result
unchanged with an empty effect trace: no print, no query-log reset, no clock
or memory read — only the flag check. -/
theorem debug_off_passthrough {α ε : Type} (funcName : String) (firstLineNo : ℕ)
    (t0 t1 : ℚ) (m0 m1 : ℕ) (label : Option String) (full : Bool)
    (callerName : String) (callerLineNo : ℕ) (work : Work α ε) (workU : Work Unit ε) :
    django_profiler_run false funcName firstLineNo t0 t1 m0 m1 work
      = ([], work.result.mapError RunError.work) ∧
    django_profiler_full_run false funcName firstLineNo t0 t1 m0 m1 work
      = ([], work.result.mapError RunError.work) ∧
    DjangoProfiler_run false label full callerName callerLineNo t0 t1 m0 m1 workU
      = ([], workU.result.mapError RunError.work) :=
  ⟨rfl, rfl, rfl⟩

/-- C2: when the debug flag is true and the wrapped work raises `e`, every
scope form propagates exactly `RunError.work e` and its trace holds no
`print` at all (`emitCount = 0`): the report is skipped on the error path. -/
theorem error_propagates_no_report {α ε : Type} (e : ε) (qs : List HostQuery)
    (funcName : String) (firstLineNo : ℕ) (t0 t1 : ℚ) (m0 m1 : ℕ)
    (label : Option String) (full : Bool) (callerName : String) (callerLineNo : ℕ) :
    django_profiler_run (α := α) true funcName firstLineNo t0 t1 m0 m1
        ⟨Except.error e, qs⟩
      = ([Effect.readClock, Effect.readMemory, Effect.resetQueries],
          Except.error (RunError.work e)) ∧
    django_profiler_full_run (α := α) true funcName firstLineNo t0 t1 m0 m1
        ⟨Except.error e, qs⟩
      = ([Effect.readClock, Effect.readMemory, Effect.resetQueries],
          Except.error (RunError.work e)) ∧
    DjangoProfiler_run true label full callerName callerLineNo t0 t1 m0 m1
        ⟨Except.error e, qs⟩
      = ([Effect.readClock, Effect.readMemory, Effect.resetQueries],
          Except.error (RunError.work e)) ∧
    emitCount [Effect.readClock, Effect.readMemory, Effect.resetQueries] = 0 :=
  ⟨rfl, rfl, rfl, rfl⟩

/-- C4: the `queries_list` a scope reports (the sorted records built from the
captured log) is pairwise non-increasing in duration, and for every duration
value the records carrying it appear in exactly their original log order
(stability of the sort). -/
theorem queries_sorted_desc_stable (log : List HostQuery) :
    (sortQueries (buildRecords log)).Pairwise (fun a b => b.time ≤ a.time) ∧
    ∀ d : ℚ, (sortQueries (buildRecords log)).filter (fun r => r.time == d)
      = (buildRecords log).filter (fun r => r.time == d) :=
  ⟨sortQueries_pairwise (buildRecords log),
   fun d => sortQueries_filter (buildRecords log) d⟩

/-- C3 counterexample: the byte formatter is not as claimed for every
integer. At `-1` (nonzero, so the claim demands a unit-suffixed string)
`math.log` raises `ValueError` (`none`); at `1024 ^ 10` the unit index is
10, past the end of the unit tuple, and `size_name[x]` raises `IndexError`
(`none`) — the code does not clamp. -/
theorem convert_size_total_counterexample :
    _convert_size (-1) = none ∧ (-1 : ℤ) ≠ 0 ∧
    _convert_size ((1024 : ℤ) ^ 10) = none ∧ (1024 : ℤ) ^ 10 ≠ 0 := by
  have h1 : ((1024 : ℤ) ^ 10) ≠ 0 := by norm_num
  have h2 : ¬ ((1024 : ℤ) ^ 10 < 0) := by norm_num
  have h3 : ((1024 : ℤ) ^ 10).toNat = 1024 ^ 10 := by
    rw [show ((1024 : ℤ) ^ 10) = ((1024 ^ 10 : ℕ) : ℤ) by norm_cast]
    exact Int.toNat_natCast _
  have h4 : Nat.log 1024 (1024 ^ 10) = 10 := Nat.log_pow (by norm_num) 10
  refine ⟨by decide, by decide, ?_, h1⟩
  simp only [_convert_size, if_neg h1, if_neg h2, h3, h4]
  norm_num

/-- C3 (amended): for every byte count `n` with `0 ≤ n < 1024 ^ 9` the
formatter behaves as the claim states: `0` yields exactly `"0B"`, and a
positive `n` yields the quotient `n / 1024 ^ unit_index` (with
`unit_index = floor(log_1024 n)`) rounded to 2 decimal places followed by
the unit name from the ordered list, the rounded value lying within `1/200`
of a unit of `n / 1024 ^ unit_index`. Outside that range the code raises
(see the counterexample). -/
theorem convert_size_spec (n : ℤ) (h0 : 0 ≤ n) (h9 : n < 1024 ^ 9) :
    (n = 0 → _convert_size n = some "0B") ∧
    (0 < n →
      _convert_size n
        = some (pyFloatRepr2 (round2 ((n : ℚ) / 1024 ^ Nat.log 1024 n.toNat)) ++ " "
            ++ size_name.getD (Nat.log 1024 n.toNat) "") ∧
      |round2 ((n : ℚ) / 1024 ^ Nat.log 1024 n.toNat) * 1024 ^ Nat.log 1024 n.toNat - (n : ℚ)|
        ≤ 1024 ^ Nat.log 1024 n.toNat / 200) := by
  constructor
  · intro h
    subst h
    rfl
  · intro hpos
    have hne : n ≠ 0 := ne_of_gt hpos
    have hnlt : ¬ n < 0 := not_lt.mpr h0
    have hK : (1024 ^ 9 : ℕ) = 1237940039285380274899124224 := by norm_num
    have h9' : n.toNat < 1024 ^ 9 := by
      rw [hK]
      norm_num at h9
      omega
    have htz : n.toNat ≠ 0 := by omega
    have hlog : Nat.log 1024 n.toNat < 9 := Nat.log_lt_of_lt_pow htz h9'
    refine ⟨?_, ?_⟩
    · simp only [_convert_size, if_neg hne, if_neg hnlt, if_pos hlog]
    · have hpow : (0 : ℚ) < 1024 ^ Nat.log 1024 n.toNat := by positivity
      have h := abs_round2_sub ((n : ℚ) / 1024 ^ Nat.log 1024 n.toNat)
      have key : round2 ((n : ℚ) / 1024 ^ Nat.log 1024 n.toNat) * 1024 ^ Nat.log 1024 n.toNat - (n : ℚ)
          = (round2 ((n : ℚ) / 1024 ^ Nat.log 1024 n.toNat)
              - (n : ℚ) / 1024 ^ Nat.log 1024 n.toNat) * 1024 ^ Nat.log 1024 n.toNat := by
        rw [sub_mul, div_mul_cancel₀ _ (ne_of_gt hpow)]
      rw [key, abs_mul, abs_of_pos hpow]
      calc |round2 ((n : ℚ) / 1024 ^ Nat.log 1024 n.toNat)
              - (n : ℚ) / 1024 ^ Nat.log 1024 n.toNat| * 1024 ^ Nat.log 1024 n.toNat
          ≤ (1 / 200) * 1024 ^ Nat.log 1024 n.toNat :=
            mul_le_mul_of_nonneg_right h (le_of_lt hpow)
        _ = 1024 ^ Nat.log 1024 n.toNat / 200 := by ring

/-- Witness for C3 at `n = 2048` (formatted as `2.0 KB`). -/
theorem convert_size_spec_witness :
    _convert_size 2048
      = some (pyFloatRepr2 (round2 (((2048 : ℤ) : ℚ) / 1024 ^ Nat.log 1024 (2048 : ℤ).toNat)) ++ " "
          ++ size_name.getD (Nat.log 1024 (2048 : ℤ).toNat) "") ∧
    |round2 (((2048 : ℤ) : ℚ) / 1024 ^ Nat.log 1024 (2048 : ℤ).toNat) * 1024 ^ Nat.log 1024 (2048 : ℤ).toNat
        - ((2048 : ℤ) : ℚ)| ≤ 1024 ^ Nat.log 1024 (2048 : ℤ).toNat / 200 :=
  (convert_size_spec 2048 (by norm_num) (by norm_num)).2 (by norm_num)

/-- C5 counterexample: with 11 captured queries the compact query-table
title reads `top 10 queries` — `len()` of the already-sliced list — not the
true total 11. -/
theorem compact_header_count_counterexample :
    (List.replicate 11 (⟨"q", "0.1", (1 : ℚ) / 10⟩ : HostQuery)).length = 11 ∧
    (compact_query_table "v [1]"
        (List.replicate 11 (⟨"q", "0.1", (1 : ℚ) / 10⟩ : HostQuery))).1
      = " v [1] top 10 queries " ∧
    " v [1] top 10 queries " ≠ " v [1] top 11 queries " := by
  have hb : buildRecords (List.replicate 11 (⟨"q", "0.1", (1 : ℚ) / 10⟩ : HostQuery))
      = List.replicate 11 (⟨"[0.1] q\n", (1 : ℚ) / 10⟩ : QueryRec) := rfl
  have hpw : (buildRecords (List.replicate 11 (⟨"q", "0.1", (1 : ℚ) / 10⟩ : HostQuery))).Pairwise
      (fun a b => queryLE a b = true) := by
    rw [hb]
    apply List.pairwise_of_forall_mem_list
    intro a ha b hbm
    rw [List.eq_of_mem_replicate ha, List.eq_of_mem_replicate hbm]
    simp [queryLE]
  have hsorted : sortQueries (buildRecords (List.replicate 11 (⟨"q", "0.1", (1 : ℚ) / 10⟩ : HostQuery)))
      = buildRecords (List.replicate 11 (⟨"q", "0.1", (1 : ℚ) / 10⟩ : HostQuery)) :=
    List.mergeSort_of_sorted hpw
  refine ⟨by simp, ?_, by decide⟩
  show (_table_response_queries "v [1]"
      ((sortQueries (buildRecords (List.replicate 11 (⟨"q", "0.1", (1 : ℚ) / 10⟩ : HostQuery)))).take 10)).1
    = " v [1] top 10 queries "
  rw [hsorted, hb]
  rfl

/-- C5 (amended): the compact query table displays at most 10 rows; when at
least one query was retained, the rows are exactly the first 10 of the
duration-sorted records with each SQL text truncated to 200 characters
(every row is at most 200 characters long), and the title's count is the
number of rows displayed, `min 10 (number of retained queries)` — the true
total appears in the timing table, not here. -/
theorem compact_table_spec (lineno : String) (log : List HostQuery) :
    (compact_query_table lineno log).2.length ≤ 10 ∧
    (buildRecords log ≠ [] →
      (compact_query_table lineno log).2
        = ((sortQueries (buildRecords log)).take 10).map (fun q => q.sql.take 200) ∧
      (∀ r ∈ (compact_query_table lineno log).2, r.length ≤ 200) ∧
      (compact_query_table lineno log).1
        = " " ++ lineno ++ " top " ++ toString (min 10 (buildRecords log).length)
            ++ " queries ") := by
  constructor
  · simp only [compact_query_table, _table_response_queries]
    by_cases hE : ((sortQueries (buildRecords log)).take 10).isEmpty
    · simp [hE]
    · simp only [hE, Bool.false_eq_true, if_false]
      rw [List.length_map, List.length_take, sortQueries_length]
      exact Nat.min_le_left _ _
  · intro hne
    have hpos : 0 < (buildRecords log).length := List.length_pos.mpr hne
    have hsne : sortQueries (buildRecords log) ≠ [] := by
      intro h
      have hl := congrArg List.length h
      rw [sortQueries_length] at hl
      simp only [List.length_nil] at hl
      omega
    have hE : ((sortQueries (buildRecords log)).take 10).isEmpty = false := by
      rw [List.isEmpty_eq_false]
      intro h
      rcases List.take_eq_nil_iff.mp h with h10 | hnil
      · exact absurd h10 (by norm_num)
      · exact hsne hnil
    refine ⟨?_, ?_, ?_⟩
    · simp [compact_query_table, _table_response_queries, hE]
    · intro r hr
      simp only [compact_query_table, _table_response_queries, hE, Bool.false_eq_true,
        if_false] at hr
      obtain ⟨q, _, hq⟩ := List.mem_map.mp hr
      rw [← hq]
      exact string_take_length_le _ _
    · simp only [compact_query_table, _table_response_queries, hE, Bool.false_eq_true,
        if_false]
      rw [List.length_take, sortQueries_length]

/-- Witness for C5 at a one-query log. -/
theorem compact_table_spec_witness :
    buildRecords [⟨"SELECT 1", "0.1", (1 : ℚ) / 10⟩] ≠ [] ∧
    ((compact_query_table "v [1]" [⟨"SELECT 1", "0.1", (1 : ℚ) / 10⟩]).2
        = ((sortQueries (buildRecords [⟨"SELECT 1", "0.1", (1 : ℚ) / 10⟩])).take 10).map
            (fun q => q.sql.take 200) ∧
      (∀ r ∈ (compact_query_table "v [1]" [⟨"SELECT 1", "0.1", (1 : ℚ) / 10⟩]).2,
        r.length ≤ 200) ∧
      (compact_query_table "v [1]" [⟨"SELECT 1", "0.1", (1 : ℚ) / 10⟩]).1
        = " " ++ "v [1]" ++ " top "
            ++ toString (min 10 (buildRecords [⟨"SELECT 1", "0.1", (1 : ℚ) / 10⟩]).length)
            ++ " queries ") :=
  ⟨by decide,
   (compact_table_spec "v [1]" [⟨"SELECT 1", "0.1", (1 : ℚ) / 10⟩]).2 (by decide)⟩

/-- C9 counterexample: with zero queries the table does render exactly one
placeholder row, but the title is the constant `" queries "`, which contains
no digit — it does not show a count of zero. -/
theorem zero_queries_title_counterexample :
    compact_query_table "v [1]" [] = (" queries ", ["No sql queries"]) ∧
    (" queries ").data.all (fun c => !c.isDigit) = true := by
  constructor
  · show _table_response_queries "v [1]" ((sortQueries (buildRecords [])).take 10) = _
    rw [show sortQueries (buildRecords []) = [] from List.mergeSort_nil]
    rfl
  · decide

/-- C9 (amended): when zero queries are captured the compact query table
renders exactly one placeholder row (`"No sql queries"`), never an empty
table; its title is the constant `" queries "`, which carries no count at
all (no digit appears in it) — the zero count is visible only in the timing
table's query-count row. -/
theorem zero_queries_placeholder_spec (lineno : String) :
    compact_query_table lineno [] = (" queries ", ["No sql queries"]) ∧
    (compact_query_table lineno []).2.length = 1 ∧
    ∀ c ∈ (compact_query_table lineno []).1.data, ¬ c.isDigit := by
  have h : compact_query_table lineno [] = (" queries ", ["No sql queries"]) := by
    show _table_response_queries lineno ((sortQueries (buildRecords [])).take 10) = _
    rw [show sortQueries (buildRecords []) = [] from List.mergeSort_nil]
    rfl
  refine ⟨h, by rw [h]; rfl, ?_⟩
  rw [h]
  decide

/-- Witness for C9 at lineno `"v [1]"` and the character `'q'` of the title. -/
theorem zero_queries_placeholder_spec_witness :
    ¬ ('q').isDigit ∧ compact_query_table "v [1]" [] = (" queries ", ["No sql queries"]) :=
  ⟨(zero_queries_placeholder_spec "v [1]").2.2 'q'
     (by rw [(zero_queries_placeholder_spec "v [1]").1]; decide),
   (zero_queries_placeholder_spec "v [1]").1⟩

/-- C6: in full mode every retained query is emitted, one `print` per
record after the header, with the record's full `"sql"` text — no cap on
the number of lines and no truncation; each such text is the host text
prettified and framed as `"[duration] sql-text"` plus a newline. -/
theorem full_mode_every_query_emitted (lineno : String) (log : List HostQuery) :
    _single_line_response_queries lineno (sortQueries (buildRecords log))
      = Out.line (lineno ++ " " ++ toString (buildRecords log).length ++ " queries:\n")
          :: (sortQueries (buildRecords log)).map (fun q => Out.line q.sql) ∧
    ∀ q ∈ sortQueries (buildRecords log), ∃ h ∈ log, h.sql ≠ "" ∧
      q.sql = "[" ++ h.timeStr ++ "] " ++ commaSpace (removeChar quoteChar h.sql) ++ "\n" := by
  constructor
  · simp only [_single_line_response_queries, sortQueries_length]
  · intro q hq
    rw [sortQueries_mem] at hq
    simp only [buildRecords, retainedQueries, List.mem_map, List.mem_filter] at hq
    obtain ⟨h, ⟨hmem, hne⟩, hqe⟩ := hq
    refine ⟨h, hmem, by simpa using hne, ?_⟩
    rw [← hqe]
    rfl

/-- Witness for C6 at a one-query log. -/
theorem full_mode_every_query_emitted_witness :
    ∃ h ∈ [(⟨"SELECT 1", "0.1", (1 : ℚ) / 10⟩ : HostQuery)], h.sql ≠ "" ∧
      (⟨"[0.1] SELECT 1\n", (1 : ℚ) / 10⟩ : QueryRec).sql
        = "[" ++ h.timeStr ++ "] " ++ commaSpace (removeChar quoteChar h.sql) ++ "\n" :=
  (full_mode_every_query_emitted "v" [⟨"SELECT 1", "0.1", (1 : ℚ) / 10⟩]).2
    ⟨"[0.1] SELECT 1\n", (1 : ℚ) / 10⟩
    (by rw [sortQueries_mem]; exact List.mem_singleton.mpr rfl)

/-- C7 counterexample: a log whose single entry has empty SQL text. The
timing table reports `queries_count = 1` (computed on the raw log, before
filtering) while the retained record set is empty and the reported total
query time is 0 — count and time are not computed over the same set. -/
theorem count_vs_time_sets_counterexample :
    Effect.emit (_table_response_timing ("view" ++ " [" ++ toString (1 : ℕ) ++ "]")
        (round4 (0 - 0)) (totalQueriesTime [⟨"", "0.5", (1 : ℚ) / 2⟩]) 1)
      ∈ (django_profiler_run (α := ℕ) (ε := Unit) true "view" 1 0 0 0 0
          ⟨Except.ok 0, [⟨"", "0.5", (1 : ℚ) / 2⟩]⟩).1 ∧
    buildRecords [⟨"", "0.5", (1 : ℚ) / 2⟩] = [] ∧
    totalQueriesTime [⟨"", "0.5", (1 : ℚ) / 2⟩] = 0 := by
  have hb : buildRecords [⟨"", "0.5", (1 : ℚ) / 2⟩] = [] := rfl
  have ht : totalQueriesTime [⟨"", "0.5", (1 : ℚ) / 2⟩] = 0 := rfl
  refine ⟨?_, hb, ht⟩
  simp only [django_profiler_run, hb, sortQueries, List.mergeSort_nil]
  simp [_table_response_memory, _convert_size, _table_response_queries]

/-- C7 (amended): the reported total query time is the sum of the durations
of exactly the retained (non-empty-SQL) records, independent of any display
truncation; the reported query count is the length of the raw captured log
(including empty-SQL entries), and the two statistics range over the same
set precisely when every captured entry has non-empty SQL text. -/
theorem count_and_time_sets_spec (log : List HostQuery) :
    totalQueriesTime log = ((buildRecords log).map (fun r => r.time)).sum ∧
    ((∀ h ∈ log, h.sql ≠ "") → log.length = (buildRecords log).length) := by
  constructor
  · unfold totalQueriesTime buildRecords
    rw [List.map_map]
    rfl
  · intro hall
    unfold buildRecords retainedQueries
    rw [List.length_map]
    rw [List.filter_eq_self.mpr (by intro a ha; simpa using hall a ha)]

/-- Witness for C7 at a one-query log with non-empty SQL. -/
theorem count_and_time_sets_spec_witness :
    totalQueriesTime [⟨"SELECT 1", "0.1", (1 : ℚ) / 10⟩]
      = ((buildRecords [⟨"SELECT 1", "0.1", (1 : ℚ) / 10⟩]).map (fun r => r.time)).sum ∧
    [(⟨"SELECT 1", "0.1", (1 : ℚ) / 10⟩ : HostQuery)].length
      = (buildRecords [⟨"SELECT 1", "0.1", (1 : ℚ) / 10⟩]).length :=
  ⟨(count_and_time_sets_spec [⟨"SELECT 1", "0.1", (1 : ℚ) / 10⟩]).1,
   (count_and_time_sets_spec [⟨"SELECT 1", "0.1", (1 : ℚ) / 10⟩]).2 (by decide)⟩

/-- C8 counterexample: the SQL text carried into the report is not the host
text verbatim — on `SELECT "x",y` the code strips the double quotes, spaces
the comma, prefixes the `[duration]` tag and appends a newline. -/
theorem sql_verbatim_counterexample :
    buildRecords [⟨"SELECT \"x\",y", "0.1", (1 : ℚ) / 10⟩]
      = [⟨"[0.1] SELECT x, y\n", (1 : ℚ) / 10⟩] ∧
    "[0.1] SELECT x, y\n" ≠ "SELECT \"x\",y" :=
  ⟨rfl, by decide⟩

theorem flatMap_comma_of_not_mem : ∀ (l : List Char), (',' : Char) ∉ l →
    (l.flatMap (fun a => if a = ',' then [',', ' '] else [a])) = l := by
  intro l
  induction l with
  | nil => intro _; rfl
  | cons x xs ih =>
    intro h
    rw [List.flatMap_cons]
    rw [if_neg (by intro hx; subst hx; exact h (List.mem_cons_self _ _))]
    rw [ih (fun hm => h (List.mem_cons_of_mem x hm))]
    rfl

theorem removeChar_of_not_mem {c : Char} {s : String} (h : c ∉ s.data) :
    removeChar c s = s := by
  unfold removeChar
  rw [List.filter_eq_self.mpr]
  · intro a ha
    simp only [bne_iff_ne, ne_eq]
    intro hac
    exact h (hac ▸ ha)

theorem commaSpace_of_no_comma {s : String} (h : (',' : Char) ∉ s.data) :
    commaSpace s = s := by
  unfold commaSpace
  rw [flatMap_comma_of_not_mem s.data h]

/-- C8 (amended): the SQL text carried into the report is the host text
transformed, not verbatim: the scope copies each retained record's text and
rewrites it by deleting every double-quote character, putting a space after
every comma, prefixing `"[duration] "` and appending a newline. A host text
containing no double quote and no comma is carried verbatim inside that
framing. (The host's own log records are only read, never written.) -/
theorem sql_transform_spec (log : List HostQuery) :
    (buildRecords log).map (fun r => r.sql)
      = (retainedQueries log).map (fun h => "[" ++ h.timeStr ++ "] "
          ++ commaSpace (removeChar quoteChar h.sql) ++ "\n") ∧
    ∀ h : HostQuery, quoteChar ∉ h.sql.data → (',' : Char) ∉ h.sql.data →
      prettify_sql h = "[" ++ h.timeStr ++ "] " ++ h.sql := by
  constructor
  · unfold buildRecords
    rw [List.map_map]
    rfl
  · intro h hq hc
    unfold prettify_sql
    rw [removeChar_of_not_mem hq, commaSpace_of_no_comma hc]

/-- Witness for C8 on a quote-free, comma-free SQL text. -/
theorem sql_transform_spec_witness :
    prettify_sql ⟨"SELECT 1", "0.1", (1 : ℚ) / 10⟩ = "[" ++ "0.1" ++ "] " ++ "SELECT 1" :=
  (sql_transform_spec []).2 ⟨"SELECT 1", "0.1", (1 : ℚ) / 10⟩ (by decide) (by decide)

/-- C10: the byte formatter raises (returns no string) on every strictly
negative input; the memory table feeds it `memory_after - memory_before`,
which is negative whenever resident memory shrank across the scope, so the
whole memory table fails; consequently a debug-mode run whose work succeeds
with memory going from 2 bytes down to 1 ends in a report-machinery error
after the work completed, instead of returning the work's value. -/
theorem convert_size_not_total :
    (∀ n : ℤ, n < 0 → _convert_size n = none) ∧
    (∀ (lineno : String) (m0 m1 : ℕ), m1 < m0 → _table_response_memory lineno m0 m1 = none) ∧
    (∀ (t0 t1 : ℚ) (v : ℕ),
      (django_profiler_run (α := ℕ) (ε := Unit) true "view" 1 t0 t1 2 1
          ⟨Except.ok v, []⟩).2 = Except.error RunError.report) := by
  have hneg : ∀ n : ℤ, n < 0 → _convert_size n = none := by
    intro n hn
    have h1 : n ≠ 0 := by omega
    simp [_convert_size, h1, hn]
  have hmem : ∀ (lineno : String) (m0 m1 : ℕ), m1 < m0 →
      _table_response_memory lineno m0 m1 = none := by
    intro lineno m0 m1 hlt
    have hd : ((m1 : ℤ) - (m0 : ℤ)) < 0 := by omega
    have h3 := hneg _ hd
    unfold _table_response_memory
    rw [h3]
    rcases _convert_size (m0 : ℤ) with _ | b <;> rcases _convert_size (m1 : ℤ) with _ | a <;> rfl
  refine ⟨hneg, hmem, ?_⟩
  intro t0 t1 v
  have h := hmem ("view" ++ " [" ++ toString (1 : ℕ) ++ "]") 2 1 (by norm_num)
  simp only [django_profiler_run, h]
  rfl

/-- Witness for C10 at `n = -5` and memory going from 2 bytes to 1. -/
theorem convert_size_not_total_witness :
    _convert_size (-5) = none ∧ _table_response_memory "v" 2 1 = none ∧
    (django_profiler_run (α := ℕ) (ε := Unit) true "view" 1 0 0 2 1
        ⟨Except.ok 0, []⟩).2 = Except.error RunError.report :=
  ⟨convert_size_not_total.1 (-5) (by norm_num),
   convert_size_not_total.2.1 "v" 2 1 (by norm_num),
   convert_size_not_total.2.2 0 0 0⟩

end DjangoSimpleProfiler
